import Mathlib

/-!
Verification development for the home_server repository: the development-stack
lifecycle manager (manage_stack.py, modelled from its specification and
exercised by src/tests/test_manage_stack.py) and the HTTP control-plane
endpoint (src/glance/custom_api_extension/host_flask.py).
-/

namespace HomeServer

/-- Modelled from the spec: Python str.strip() — remove leading and trailing
whitespace characters, working directly on the character list of the string. -/
def stripChars (s : String) : String :=
  ⟨((s.data.dropWhile Char.isWhitespace).reverse.dropWhile Char.isWhitespace).reverse⟩

/-- Python str.lower(), character by character. -/
def lowerStr (s : String) : String :=
  ⟨s.data.map Char.toLower⟩

/-- Python str.startswith(p): the characters of p form a prefix of s. -/
def strStartsWith (s p : String) : Bool :=
  List.isPrefixOf p.data s.data

/-- Characters after the first space, i.e. Python s.split(' ', 1)[1] on its
character list (empty when no space occurs). -/
def afterFirstSpace : List Char → List Char
  | [] => []
  | c :: rest => if c = ' ' then rest else afterFirstSpace rest

/-! ## Orchestrator configuration (manage_stack.py, modelled from the spec)

The source of manage_stack.py is not part of src/; only its test suite is.
Everything in this section is therefore modelled from the spec, with the
ambient module-level settings and the outcome of each external process call
gathered into an explicit `Config` record. -/

/-- Modelled from the spec: the ambient configuration of one orchestrator run —
the CLI intent flags, the compose-file settings, the capability-probe result,
and the outcome (success or fatal failure) of every external action the run
may attempt. manage_stack.py itself is missing from src/. -/
structure Config where
  cleanShutdown : Bool
  restartOnly : Bool
  composeCmd : List String
  baseFile : String
  gpuFile : String
  gpuFileExists : Bool
  gpuRuntimeAvailable : Bool
  interpOk : Bool
  installOk : Bool
  queryExit : Nat
  queryStdout : String
  downOk : Bool
  cleanDownGpuOk : Bool
  cleanDownBaseOk : Bool
  upOk : Bool
  envFileExists : Bool
  flaskOk : Bool

/-- Modelled from the spec: build_compose_command — always the compose
executable and the base compose file, then the GPU override file layered only
when requested and present on disk, then the caller-supplied arguments last. -/
def build_compose_command (c : Config) (extraArgs : List String)
    (includeGpuOverride : Bool) : List String :=
  c.composeCmd ++ ["-f", c.baseFile] ++
    (if includeGpuOverride && c.gpuFileExists then ["-f", c.gpuFile] else []) ++
    extraArgs

/-- Modelled from the spec: should_use_gpu_override — the GPU override compose
file exists on disk and the capability probe reports a GPU runtime. -/
def should_use_gpu_override (c : Config) : Bool :=
  c.gpuFileExists && c.gpuRuntimeAvailable

/-- Modelled from the spec: compose_is_running — a non-zero exit of the
external stack-state query is surfaced as a runtime error, never as a
negative answer; on exit zero the stack counts as running exactly when the
captured output is non-empty after stripping whitespace. -/
def compose_is_running (exit : Nat) (stdout : String) : Except String Bool :=
  if exit ≠ 0 then Except.error ("docker compose ps failed")
  else Except.ok (stripChars stdout != "")

/-- Modelled from the spec: whether the stack-state query of a run both
succeeds and reports the stack running. -/
def queryReportsRunning (c : Config) : Bool :=
  (c.queryExit == 0) && (stripChars c.queryStdout != "")

/-- One step of the orchestrator sequence. `run` is a compose command issued
through run_with_output; `query` is the captured stack-state invocation. -/
inductive Step where
  | run : List String → Step
  | query : List String → Step
  | probe : Step
  | resolveInterp : Step
  | install : Step
  | checkEnv : Step
  | launchFlask : Step
deriving DecidableEq

/-- A step attempt together with its outcome: true when the step succeeds,
false when it raises a fatal error. -/
abbrev Attempt := Step × Bool

/-- Modelled from the spec: the capability-probe attempts of a run — the probe
is invoked by should_use_gpu_override only when the override file exists, so
absence of the file short-circuits to false without probing; a probe is
best-effort and never a fatal step. -/
def probeAttempts (c : Config) : List Attempt :=
  if c.gpuFileExists then [(Step.probe, true)] else []

/-- Modelled from the spec: the ordered sequence of steps one orchestrator run
intends to attempt, each paired with its outcome from `Config`.  CLEAN_SHUTDOWN
is two stack-down commands (GPU-layered, then plain).  Otherwise the GPU
eligibility is resolved once up front, the interpreter is resolved,
dependencies are installed, NORMAL_CYCLE additionally queries the stack state
and plans a stack-down when the query reports it running, and both remaining
intents plan a detached stack-up, the settings-file check, and the
control-plane launch. -/
def plan (c : Config) : List Attempt :=
  if c.cleanShutdown then
    [(Step.run (build_compose_command c ["down"] true), c.cleanDownGpuOk),
     (Step.run (build_compose_command c ["down"] false), c.cleanDownBaseOk)]
  else
    probeAttempts c ++
    [(Step.resolveInterp, c.interpOk), (Step.install, c.installOk)] ++
    (if c.restartOnly then []
     else
       (Step.query (build_compose_command c ["ps"] (should_use_gpu_override c)),
         c.queryExit == 0) ::
       (if queryReportsRunning c then
          [(Step.run (build_compose_command c ["down"] (should_use_gpu_override c)),
            c.downOk)]
        else [])) ++
    [(Step.run (build_compose_command c ["up", "-d"] (should_use_gpu_override c)),
      c.upOk),
     (Step.checkEnv, c.envFileExists), (Step.launchFlask, c.flaskOk)]

/-- Modelled from the spec: sequential execution with the fatal-error policy —
steps run strictly in order, a failing step is the last one attempted, and the
process exit code is 0 on full success and 1 once any step fails. Returns the
exit code together with the attempts actually made. -/
def execute : List Attempt → Nat × List Attempt
  | [] => (0, [])
  | a :: rest =>
    if a.2 = true then ((execute rest).1, a :: (execute rest).2)
    else (1, [a])

/-- Modelled from the spec: one full orchestrator run — execute the planned
step sequence of the parsed intent under the fatal-error policy. -/
def main (c : Config) : Nat × List Attempt :=
  execute (plan c)

/-- The compose command lines issued through run_with_output during a run, in
order (stack-state query invocations are captured reads, not issued stack
commands). -/
def issuedCommands (t : List Attempt) : List (List String) :=
  t.filterMap (fun a =>
    match a.1 with
    | Step.run cmd => some cmd
    | _ => none)

/-- Number of capability-probe invocations recorded in a trace. -/
def probeCount (t : List Attempt) : Nat :=
  (t.filter (fun a => a.1 = Step.probe)).length

/-- Whether a trace contains a stack-state query step. -/
def hasQueryStep (t : List Attempt) : Bool :=
  t.any (fun a => match a.1 with | Step.query _ => true | _ => false)

/-- Whether a trace contains a control-plane launch step. -/
def hasLaunchStep (t : List Attempt) : Bool :=
  t.any (fun a => a.1 = Step.launchFlask)

/-- Whether a trace contains an interpreter-resolution step. -/
def hasResolveStep (t : List Attempt) : Bool :=
  t.any (fun a => a.1 = Step.resolveInterp)

/-- Whether a trace contains a dependency-installation step. -/
def hasInstallStep (t : List Attempt) : Bool :=
  t.any (fun a => a.1 = Step.install)

/-! ## Dependency provisioning (modelled from the spec) -/

/-- Modelled from the spec: the relevant slice of the project metadata file —
the base dependency list and the named optional dependency groups. -/
structure ProjectMetadata where
  dependencies : List String
  optionalDependencies : List (String × List String)

/-- Look up a named optional dependency group; a missing group contributes
nothing. -/
def lookupGroup (groups : List (String × List String)) (name : String) :
    List String :=
  match groups.find? (fun p => p.1 == name) with
  | some p => p.2
  | none => []

/-- The concatenation, before deduplication, of the base dependency list and
the configured optional groups in configured order. -/
def rawDependencyList (meta : ProjectMetadata) (groupNames : List String) :
    List String :=
  meta.dependencies ++
    (groupNames.map (fun g => lookupGroup meta.optionalDependencies g)).flatten

/-- Append a package name unless it was already collected. -/
def dedupAppend (acc : List String) (x : String) : List String :=
  if x ∈ acc then acc else acc ++ [x]

/-- Modelled from the spec: collect_project_dependencies — merge the base list
with the configured optional groups, deduplicated preserving first-seen
order. -/
def collect_project_dependencies (meta : ProjectMetadata)
    (groupNames : List String) : List String :=
  (rawDependencyList meta groupNames).foldl dedupAppend []

/-- Index of the first occurrence of a name in a list (the length of the list when
absent). -/
def firstIndexOf : List String → String → Nat
  | [], _ => 0
  | x :: xs, a => if x = a then 0 else firstIndexOf xs a + 1

/-! ## Environment resolver (modelled from the spec) -/

/-- Modelled from the spec: locate_virtualenv_python — the first candidate
interpreter path that exists, falling back to the first candidate when none
does.  The existence check of the ambient filesystem is passed in explicitly. -/
def locate_virtualenv_python (candidates : List String) (ex : String → Bool) :
    Option String :=
  match candidates.find? ex with
  | some p => some p
  | none => candidates.head?

/-- Modelled from the spec: ensure_virtualenv_python — return the first
existing candidate; when none exists, invoke environment creation once and
return the first candidate path, its existence not re-verified (the creation
step is trusted).  The second component counts create_virtualenv
invocations. -/
def ensure_virtualenv_python (candidates : List String) (ex : String → Bool) :
    Option String × Nat :=
  match candidates.find? ex with
  | some p => (some p, 0)
  | none => (candidates.head?, 1)

/-- Modelled from the spec: resolve_python_interpreter — the managed
environment when enabled, otherwise the currently running interpreter with no
side effects. -/
def resolve_python_interpreter (useVirtualenv : Bool) (sysExecutable : String)
    (candidates : List String) (ex : String → Bool) : Option String × Nat :=
  if useVirtualenv then ensure_virtualenv_python candidates ex
  else (some sysExecutable, 0)

/-! ## Control-plane endpoint (src/glance/custom_api_extension/host_flask.py) -/

/-- The token-bearing parts of an HTTP request to the control plane: the
Authorization header (empty string when absent, as headers.get returns) and
the optional form and query string token fields. -/
structure Request where
  authHeader : String
  formToken : Option String
  queryToken : Option String

/-- The token taken from the Authorization header: the Bearer-stripped
remainder when the header starts with a bearer marker (case-insensitively),
otherwise the stripped header itself; empty when the header is absent. -/
def headerToken (header : String) : String :=
  if header ≠ "" then
    if strStartsWith (lowerStr header) ("bearer ") then
      stripChars ⟨afterFirstSpace header.data⟩
    else stripChars header
  else ""

/-- The token a request supplies, with the precedence of token_required: a
non-empty header token wins, then the form field when non-empty, then the
query field; the empty string stands for a missing token. -/
def extractToken (r : Request) : String :=
  let h := headerToken r.authHeader
  if h ≠ "" then h
  else
    match r.formToken with
    | some s => if s ≠ "" then s else r.queryToken.getD ("")
    | none => r.queryToken.getD ("")

/-- Outcome of the token_required guard: rejection with an HTTP status and
message, or permission to run the wrapped handler body. -/
inductive AuthResult where
  | rejected : Nat → String → AuthResult
  | granted : AuthResult
deriving DecidableEq

/-- The token_required decorator of host_flask.py: 403 when no token is
supplied, 403 when the supplied token differs from the MY_SECRET_TOKEN
environment value, and only otherwise does the handler body run. -/
def token_required (validToken : String) (r : Request) : AuthResult :=
  let token := extractToken r
  if token = "" then AuthResult.rejected 403 ("Token is missing!")
  else if token ≠ validToken then AuthResult.rejected 403 ("Invalid token!")
  else AuthResult.granted

/-- The first branch condition shared by both handlers: a platform id
starting with linux, or equal to wsl or darwin. -/
def unixPlatform (platform_id : String) : Bool :=
  strStartsWith platform_id ("linux") || platform_id == "wsl" ||
    platform_id == "darwin"

/-- The platform-dispatch of the shutdown handler: the command string it
selects, none on an unsupported platform. -/
def shutdown_command (platform_id : String) : Option String :=
  if unixPlatform platform_id then some ("sudo shutdown -h now")
  else if platform_id == "windows" then some ("shutdown /s /t 0")
  else none

/-- The platform-dispatch of the restart handler: the command string it
selects, none on an unsupported platform. -/
def restart_command (platform_id : String) : Option String :=
  if unixPlatform platform_id then some ("shutdown -r now")
  else if platform_id == "windows" then some ("shutdown /r /t 0")
  else none

/-- HTTP response of a handler together with the external commands it spawned
on the host. -/
structure HandlerResult where
  status : Nat
  message : String
  spawned : List String
deriving DecidableEq

/-- The authenticated body of the /shutdown route: select the platform
command, reject unsupported platforms with 400, and answer 200 otherwise; the
run_command call of the source is commented out, so no command is spawned on
any path. -/
def shutdown_handler (platform_id : String) : HandlerResult :=
  match shutdown_command platform_id with
  | some _cmd => { status := 200, message := "Shutdown command issued", spawned := [] }
  | none =>
    { status := 400, message := "Unsupported platform: " ++ platform_id, spawned := [] }

/-- The authenticated body of the /restart route: same dispatch as /shutdown
with the restart command table, and likewise no spawned command. -/
def restart_handler (platform_id : String) : HandlerResult :=
  match restart_command platform_id with
  | some _cmd => { status := 200, message := "Restart command issued", spawned := [] }
  | none =>
    { status := 400, message := "Unsupported platform: " ++ platform_id, spawned := [] }

/-- The /shutdown route as a whole: token_required wrapping the handler
body. -/
def shutdown_route (validToken : String) (r : Request) (platform_id : String) :
    HandlerResult :=
  match token_required validToken r with
  | AuthResult.rejected s m => { status := s, message := m, spawned := [] }
  | AuthResult.granted => shutdown_handler platform_id

/-- The /restart route as a whole: token_required wrapping the handler body. -/
def restart_route (validToken : String) (r : Request) (platform_id : String) :
    HandlerResult :=
  match token_required validToken r with
  | AuthResult.rejected s m => { status := s, message := m, spawned := [] }
  | AuthResult.granted => restart_handler platform_id

/-- A platform id the handlers accept. -/
def supportedPlatform (platform_id : String) : Bool :=
  unixPlatform platform_id || platform_id == "windows"

/-! ## Concrete fixtures used by the witness theorems -/

/-- A fully successful NORMAL_CYCLE run with the GPU override available and
the stack reported running. -/
def cfgRunning : Config :=
  { cleanShutdown := false, restartOnly := false,
    composeCmd := ["docker", "compose"], baseFile := "docker-compose.yml",
    gpuFile := "docker-compose.gpu.yml", gpuFileExists := true,
    gpuRuntimeAvailable := true, interpOk := true, installOk := true,
    queryExit := 0, queryStdout := "homeserver\n", downOk := true,
    cleanDownGpuOk := true, cleanDownBaseOk := true, upOk := true,
    envFileExists := true, flaskOk := true }

/-- A fully successful NORMAL_CYCLE run with no GPU override file and the
stack not running. -/
def cfgIdle : Config :=
  { cfgRunning with
    gpuFileExists := false
    gpuRuntimeAvailable := false
    queryStdout := " \n" }

/-- A CLEAN_SHUTDOWN run, both compose files present. -/
def cfgClean : Config :=
  { cfgRunning with cleanShutdown := true }

/-- A RESTART_ONLY run with the GPU override not eligible. -/
def cfgRestart : Config :=
  { cfgRunning with restartOnly := true, gpuFileExists := false }

/-- A NORMAL_CYCLE run whose dependency installation fails. -/
def cfgInstallFail : Config :=
  { cfgRunning with installOk := false }

/-- A NORMAL_CYCLE run whose stack-state query exits non-zero. -/
def cfgQueryFail : Config :=
  { cfgRunning with queryExit := 1 }

/-- The dependency metadata of the merge scenario of the test suite. -/
def sampleMetadata : ProjectMetadata :=
  { dependencies := ["flask", "pytest", "flask"],
    optionalDependencies :=
      [("dev", ["pytest", "black"]), ("extras", ["black", "ruff"])] }

/-! ## Infrastructure lemmas about sequential execution -/

theorem execute_all_ok (l : List Attempt) (h : ∀ a ∈ l, a.2 = true) :
    execute l = (0, l) := by
  induction l with
  | nil => rfl
  | cons a rest ih =>
    have ha : a.2 = true := h a (by simp)
    simp [execute, ha, ih (fun b hb => h b (by simp [hb]))]

theorem execute_append_ok (l1 l2 : List Attempt) (h : ∀ a ∈ l1, a.2 = true) :
    execute (l1 ++ l2) = ((execute l2).1, l1 ++ (execute l2).2) := by
  induction l1 with
  | nil => simp
  | cons a rest ih =>
    have ha : a.2 = true := h a (by simp)
    simp [execute, ha, ih (fun b hb => h b (by simp [hb]))]

theorem execute_prefix_fail (l1 : List Attempt) (s : Step) (l2 : List Attempt)
    (h : ∀ a ∈ l1, a.2 = true) :
    execute (l1 ++ (s, false) :: l2) = (1, l1 ++ [(s, false)]) := by
  rw [execute_append_ok l1 _ h]
  simp [execute]

theorem execute_fst_or (l : List Attempt) :
    (execute l).1 = 0 ∨ (execute l).1 = 1 := by
  induction l with
  | nil => left; rfl
  | cons a rest ih =>
    by_cases ha : a.2 = true
    · simpa [execute, ha] using ih
    · simp [execute, ha]

theorem execute_fst_eq_zero_iff (l : List Attempt) :
    (execute l).1 = 0 ↔ ∀ a ∈ (execute l).2, a.2 = true := by
  induction l with
  | nil => simp [execute]
  | cons a rest ih =>
    by_cases ha : a.2 = true
    · simp [execute, ha, ih]
    · simp [execute, ha]

theorem execute_dropLast_ok (l : List Attempt) :
    ∀ a ∈ (execute l).2.dropLast, a.2 = true := by
  induction l with
  | nil => simp [execute]
  | cons a rest ih =>
    by_cases ha : a.2 = true
    · intro b hb
      rw [show (execute (a :: rest)).2 = a :: (execute rest).2 by
        simp [execute, ha]] at hb
      rcases h2 : (execute rest).2 with _ | ⟨c, t⟩
      · rw [h2] at hb; simp at hb
      · rw [h2, List.dropLast_cons₂] at hb
        rcases List.mem_cons.mp hb with rfl | hb2
        · exact ha
        · exact ih b (h2 ▸ hb2)
    · intro b hb
      simp [execute, ha] at hb

theorem execute_mem_sub (l : List Attempt) : ∀ a ∈ (execute l).2, a ∈ l := by
  induction l with
  | nil => simp [execute]
  | cons a rest ih =>
    by_cases ha : a.2 = true
    · intro b hb
      simp only [execute, ha, if_true, List.mem_cons] at hb
      rcases hb with rfl | hb
      · simp
      · exact List.mem_cons_of_mem _ (ih b hb)
    · intro b hb
      simp [execute, ha] at hb
      simp [hb]

theorem probeAttempts_mem (c : Config) :
    ∀ a ∈ probeAttempts c, a = (Step.probe, true) := by
  cases hg : c.gpuFileExists <;> simp [probeAttempts, hg]

theorem probeAttempts_ok (c : Config) :
    ∀ a ∈ probeAttempts c, a.2 = true := by
  intro a ha
  rw [probeAttempts_mem c a ha]

/-! ## Claim theorems -/

/-- C5: should_use_gpu_override is false whenever the GPU override file is
absent, regardless of the capability-probe result and without any probe being
attempted, and build_compose_command with include_gpu_override requested
still omits the override file reference, keeping the base compose file first
and the caller-supplied arguments last. -/
theorem gpu_override_never_used_when_file_absent (c : Config)
    (args : List String) (h : c.gpuFileExists = false) :
    should_use_gpu_override c = false ∧
    probeAttempts c = [] ∧
    build_compose_command c args true =
      c.composeCmd ++ ["-f", c.baseFile] ++ args := by
  refine ⟨?_, ?_, ?_⟩
  · simp [should_use_gpu_override, h]
  · simp [probeAttempts, h]
  · simp [build_compose_command, h]

/-- C5 witness: a concrete configuration without the override file, probed
capability present, and an up command. -/
theorem gpu_override_never_used_when_file_absent_instance :
    should_use_gpu_override { cfgRunning with gpuFileExists := false } = false ∧
    probeAttempts { cfgRunning with gpuFileExists := false } = [] ∧
    build_compose_command { cfgRunning with gpuFileExists := false }
        ["up", "-d"] true =
      ["docker", "compose", "-f", "docker-compose.yml", "up", "-d"] := by
  have h := gpu_override_never_used_when_file_absent
    { cfgRunning with gpuFileExists := false } ["up", "-d"] (by decide)
  refine ⟨h.1, h.2.1, ?_⟩
  rw [h.2.2]
  decide

/-- C6: the stack-state query raises a runtime error on non-zero exit of the
external call (never answering false for a failed query), and on exit zero it
reports running exactly when the captured output is non-empty after stripping
whitespace. -/
theorem compose_is_running_policy (exit : Nat) (stdout : String) :
    (exit ≠ 0 → compose_is_running exit stdout =
      Except.error ("docker compose ps failed")) ∧
    (exit = 0 → (compose_is_running exit stdout = Except.ok true ↔
      stripChars stdout ≠ "")) ∧
    (exit = 0 → (compose_is_running exit stdout = Except.ok false ↔
      stripChars stdout = "")) := by
  by_cases hx : exit = 0
  · refine ⟨fun h => absurd hx h, fun _ => ?_, fun _ => ?_⟩
    · by_cases hs : stripChars stdout = "" <;>
        simp [compose_is_running, hx, hs]
    · by_cases hs : stripChars stdout = "" <;>
        simp [compose_is_running, hx, hs]
  · refine ⟨fun _ => by simp [compose_is_running, hx], ?_, ?_⟩ <;>
      exact fun h => absurd h hx

/-- C6 witness: with exit zero the query reports running on the output
container with a trailing newline and not running on empty output, and a
non-zero exit is an error. -/
theorem compose_is_running_policy_instance :
    compose_is_running 0 ("container\n") = Except.ok true ∧
    compose_is_running 0 ("") = Except.ok false ∧
    compose_is_running 1 ("") = Except.error ("docker compose ps failed") := by
  refine ⟨?_, ?_, ?_⟩
  · exact ((compose_is_running_policy 0 ("container\n")).2.1 rfl).mpr (by decide)
  · exact ((compose_is_running_policy 0 ("")).2.2 rfl).mpr (by decide)
  · exact (compose_is_running_policy 1 ("")).1 (by decide)

/-- C2: in CLEAN_SHUTDOWN the orchestrator plans no dependency installation,
no interpreter resolution, no control-plane launch and no stack-state query;
when the two stack-down commands succeed the whole run is exactly the
GPU-layered down followed by the plain down with exit code 0, the first
command layering the override file exactly when it exists on disk. -/
theorem clean_shutdown_behavior (c : Config) (h : c.cleanShutdown = true) :
    (hasInstallStep (main c).2 = false ∧ hasResolveStep (main c).2 = false ∧
     hasLaunchStep (main c).2 = false ∧ hasQueryStep (main c).2 = false) ∧
    (c.cleanDownGpuOk = true → c.cleanDownBaseOk = true →
      main c = (0, [(Step.run (build_compose_command c ["down"] true), true),
                    (Step.run (build_compose_command c ["down"] false), true)])) ∧
    (c.gpuFileExists = true →
      build_compose_command c ["down"] true =
        c.composeCmd ++ ["-f", c.baseFile] ++ ["-f", c.gpuFile] ++ ["down"]) ∧
    build_compose_command c ["down"] false =
      c.composeCmd ++ ["-f", c.baseFile] ++ ["down"] := by
  have hplan : plan c =
      [(Step.run (build_compose_command c ["down"] true), c.cleanDownGpuOk),
       (Step.run (build_compose_command c ["down"] false), c.cleanDownBaseOk)] := by
    simp [plan, h]
  have hshape : ∀ a ∈ (main c).2, ∃ cmd f, a = (Step.run cmd, f) := by
    intro a ha
    have hm : a ∈ plan c := execute_mem_sub (plan c) a ha
    rw [hplan] at hm
    simp only [List.mem_cons, List.not_mem_nil, or_false] at hm
    rcases hm with rfl | rfl
    · exact ⟨_, _, rfl⟩
    · exact ⟨_, _, rfl⟩
  refine ⟨⟨?_, ?_, ?_, ?_⟩, ?_, ?_, ?_⟩
  · rw [hasInstallStep, List.any_eq_false]
    intro a ha
    obtain ⟨cmd, f, rfl⟩ := hshape a ha
    simp
  · rw [hasResolveStep, List.any_eq_false]
    intro a ha
    obtain ⟨cmd, f, rfl⟩ := hshape a ha
    simp
  · rw [hasLaunchStep, List.any_eq_false]
    intro a ha
    obtain ⟨cmd, f, rfl⟩ := hshape a ha
    simp
  · rw [hasQueryStep, List.any_eq_false]
    intro a ha
    obtain ⟨cmd, f, rfl⟩ := hshape a ha
    simp
  · intro hg hb
    show execute (plan c) = _
    rw [hplan, hg, hb]
    exact execute_all_ok _ (by simp)
  · intro hg
    simp [build_compose_command, hg]
  · simp [build_compose_command]

/-- C2 witness: the concrete CLEAN_SHUTDOWN run with both compose files
present issues exactly the two down commands and exits 0. -/
theorem clean_shutdown_behavior_instance :
    main cfgClean =
      (0, [(Step.run (build_compose_command cfgClean ["down"] true), true),
           (Step.run (build_compose_command cfgClean ["down"] false), true)]) ∧
    hasInstallStep (main cfgClean).2 = false := by
  have h := clean_shutdown_behavior cfgClean (by decide)
  exact ⟨h.2.1 (by decide) (by decide), h.1.1⟩

/-- C3: in RESTART_ONLY no stack-state query is performed and the only
compose command issued is the single detached stack-up, regardless of any
prior running state; when the up and the settings check succeed the
control-plane launch is attempted right after them. -/
theorem restart_only_commands (c : Config)
    (h1 : c.cleanShutdown = false) (h2 : c.restartOnly = true)
    (h3 : c.interpOk = true) (h4 : c.installOk = true) :
    hasQueryStep (main c).2 = false ∧
    issuedCommands (main c).2 =
      [build_compose_command c ["up", "-d"] (should_use_gpu_override c)] ∧
    (c.upOk = true → c.envFileExists = true →
      main c = ((if c.flaskOk = true then 0 else 1),
        probeAttempts c ++
        [(Step.resolveInterp, true), (Step.install, true),
         (Step.run (build_compose_command c ["up", "-d"]
           (should_use_gpu_override c)), true),
         (Step.checkEnv, true), (Step.launchFlask, c.flaskOk)])) := by
  cases hg : c.gpuFileExists <;> cases hup : c.upOk <;>
    cases henv : c.envFileExists <;> cases hfl : c.flaskOk <;>
    simp [main, plan, probeAttempts, execute, issuedCommands, hasQueryStep,
      h1, h2, h3, h4, hg, hup, henv, hfl]

/-- C3 witness: the concrete RESTART_ONLY run issues exactly one detached up
command built without the GPU override, performs no query, and launches the
control plane. -/
theorem restart_only_commands_instance :
    hasQueryStep (main cfgRestart).2 = false ∧
    issuedCommands (main cfgRestart).2 =
      [["docker", "compose", "-f", "docker-compose.yml", "up", "-d"]] ∧
    main cfgRestart =
      (0, [(Step.resolveInterp, true), (Step.install, true),
           (Step.run ["docker", "compose", "-f", "docker-compose.yml",
             "up", "-d"], true),
           (Step.checkEnv, true), (Step.launchFlask, true)]) := by
  have h := restart_only_commands cfgRestart (by decide) (by decide)
    (by decide) (by decide)
  refine ⟨h.1, ?_, ?_⟩
  · rw [h.2.1]; decide
  · have h3 := h.2.2 (by decide) (by decide)
    rw [h3]; decide

/-- C1: in NORMAL_CYCLE the GPU-override eligibility is resolved once (a
single probe when the override file exists, none otherwise); when the query
reports the stack running the issued compose commands are exactly a
stack-down followed by a detached stack-up, both built with that eligibility;
when the query reports not running, exactly the detached stack-up alone. -/
theorem normal_cycle_commands (c : Config)
    (h1 : c.cleanShutdown = false) (h2 : c.restartOnly = false)
    (h3 : c.interpOk = true) (h4 : c.installOk = true)
    (h5 : c.queryExit = 0) :
    probeCount (main c).2 = (if c.gpuFileExists = true then 1 else 0) ∧
    (stripChars c.queryStdout ≠ "" → c.downOk = true →
      issuedCommands (main c).2 =
        [build_compose_command c ["down"] (should_use_gpu_override c),
         build_compose_command c ["up", "-d"] (should_use_gpu_override c)]) ∧
    (stripChars c.queryStdout = "" →
      issuedCommands (main c).2 =
        [build_compose_command c ["up", "-d"] (should_use_gpu_override c)]) := by
  by_cases hrun : stripChars c.queryStdout = "" <;>
    cases hg : c.gpuFileExists <;> cases hdown : c.downOk <;>
    cases hup : c.upOk <;> cases henv : c.envFileExists <;>
    cases hfl : c.flaskOk <;>
    simp [main, plan, probeAttempts, execute, issuedCommands, probeCount,
      queryReportsRunning, bne_iff_ne, h1, h2, h3, h4, h5, hrun, hg, hdown,
      hup, henv, hfl]

/-- C1 witness, running branch: the concrete all-success run with the stack
reported running issues the GPU-layered down then the detached GPU-layered
up. -/
theorem normal_cycle_commands_instance_running :
    issuedCommands (main cfgRunning).2 =
      [["docker", "compose", "-f", "docker-compose.yml", "-f",
        "docker-compose.gpu.yml", "down"],
       ["docker", "compose", "-f", "docker-compose.yml", "-f",
        "docker-compose.gpu.yml", "up", "-d"]] ∧
    probeCount (main cfgRunning).2 = 1 := by
  have h := normal_cycle_commands cfgRunning rfl rfl rfl rfl rfl
  constructor
  · rw [h.2.1 (by decide) rfl]
    decide
  · rw [h.1]; decide

/-- C1 witness, idle branch: with whitespace-only query output the single
issued command is the detached up without the GPU layer. -/
theorem normal_cycle_commands_instance_idle :
    issuedCommands (main cfgIdle).2 =
      [["docker", "compose", "-f", "docker-compose.yml", "up", "-d"]] := by
  have h := normal_cycle_commands cfgIdle rfl rfl rfl rfl rfl
  rw [h.2.2 (by decide)]
  decide

/-- C4: the exit code is always 0 or 1, it is 0 exactly when every attempted
step succeeded, a failed step is always the last one attempted, a
dependency-install failure yields exit 1 with no stack-state query, no issued
stack command and no control-plane launch, and a stack-query failure yields
exit 1 with no issued stack command and no launch. -/
theorem exit_code_and_abort_policy (c : Config) :
    ((main c).1 = 0 ∨ (main c).1 = 1) ∧
    ((main c).1 = 0 ↔ ∀ a ∈ (main c).2, a.2 = true) ∧
    (∀ a ∈ (main c).2.dropLast, a.2 = true) ∧
    (c.cleanShutdown = false → c.interpOk = true → c.installOk = false →
      (main c).1 = 1 ∧ hasQueryStep (main c).2 = false ∧
      issuedCommands (main c).2 = [] ∧ hasLaunchStep (main c).2 = false) ∧
    (c.cleanShutdown = false → c.restartOnly = false → c.interpOk = true →
      c.installOk = true → c.queryExit ≠ 0 →
      (main c).1 = 1 ∧ issuedCommands (main c).2 = [] ∧
      hasLaunchStep (main c).2 = false) := by
  refine ⟨execute_fst_or (plan c), execute_fst_eq_zero_iff (plan c),
    execute_dropLast_ok (plan c), ?_, ?_⟩
  · intro h1 h3 h4
    have hplan : plan c =
        (probeAttempts c ++ [(Step.resolveInterp, true)]) ++
          (Step.install, false) ::
          ((if c.restartOnly = true then []
            else (Step.query (build_compose_command c ["ps"]
                (should_use_gpu_override c)), c.queryExit == 0) ::
              (if queryReportsRunning c then
                [(Step.run (build_compose_command c ["down"]
                  (should_use_gpu_override c)), c.downOk)]
               else [])) ++
           [(Step.run (build_compose_command c ["up", "-d"]
              (should_use_gpu_override c)), c.upOk),
            (Step.checkEnv, c.envFileExists),
            (Step.launchFlask, c.flaskOk)]) := by
      simp [plan, h1, h3, h4]
    have hok : ∀ a ∈ probeAttempts c ++ [(Step.resolveInterp, true)],
        a.2 = true := by
      intro a ha
      rcases List.mem_append.mp ha with ha | ha
      · exact probeAttempts_ok c a ha
      · simp only [List.mem_singleton] at ha
        rw [ha]
    have hmain : main c =
        (1, (probeAttempts c ++ [(Step.resolveInterp, true)]) ++
          [(Step.install, false)]) := by
      show execute (plan c) = _
      rw [hplan]
      exact execute_prefix_fail _ _ _ hok
    cases hg : c.gpuFileExists <;>
      simp [hmain, probeAttempts, hg, hasQueryStep, issuedCommands,
        hasLaunchStep]
  · intro h1 h2 h3 h4 h5
    have hq : (c.queryExit == 0) = false := by
      simpa using h5
    have hplan : plan c =
        (probeAttempts c ++
          [(Step.resolveInterp, true), (Step.install, true)]) ++
          (Step.query (build_compose_command c ["ps"]
            (should_use_gpu_override c)), false) ::
          [(Step.run (build_compose_command c ["up", "-d"]
             (should_use_gpu_override c)), c.upOk),
           (Step.checkEnv, c.envFileExists),
           (Step.launchFlask, c.flaskOk)] := by
      simp [plan, queryReportsRunning, h1, h2, h3, h4, hq]
    have hok : ∀ a ∈ probeAttempts c ++
        [(Step.resolveInterp, true), (Step.install, true)], a.2 = true := by
      intro a ha
      rcases List.mem_append.mp ha with ha | ha
      · exact probeAttempts_ok c a ha
      · rcases List.mem_cons.mp ha with rfl | ha
        · rfl
        · simp only [List.mem_singleton] at ha
          rw [ha]
    have hmain : main c =
        (1, (probeAttempts c ++
          [(Step.resolveInterp, true), (Step.install, true)]) ++
          [(Step.query (build_compose_command c ["ps"]
            (should_use_gpu_override c)), false)]) := by
      show execute (plan c) = _
      rw [hplan]
      exact execute_prefix_fail _ _ _ hok
    cases hg : c.gpuFileExists <;>
      simp [hmain, probeAttempts, hg, issuedCommands, hasLaunchStep]

/-- C4 witness: the install-failure run exits 1 having issued nothing and
attempted no query or launch, the query-failure run exits 1 having issued
nothing, and the all-success run exits 0. -/
theorem exit_code_and_abort_policy_instance :
    (main cfgInstallFail).1 = 1 ∧
    hasQueryStep (main cfgInstallFail).2 = false ∧
    issuedCommands (main cfgInstallFail).2 = [] ∧
    (main cfgQueryFail).1 = 1 ∧
    issuedCommands (main cfgQueryFail).2 = [] ∧
    (main cfgRunning).1 = 0 := by
  have hi := (exit_code_and_abort_policy cfgInstallFail).2.2.2.1
    rfl rfl rfl
  have hq := (exit_code_and_abort_policy cfgQueryFail).2.2.2.2
    rfl rfl rfl rfl (by decide)
  have hr := (exit_code_and_abort_policy cfgRunning).2.1
  exact ⟨hi.1, hi.2.1, hi.2.2.1, hq.1, hq.2.1, hr.mpr (by decide)⟩

theorem firstIndexOf_append_cons (p t : List String) (x : String)
    (hx : x ∉ p) : firstIndexOf (p ++ x :: t) x = p.length := by
  induction p with
  | nil => simp [firstIndexOf]
  | cons y p ih =>
    have hyx : ¬ y = x := by
      intro hcontra
      exact hx (by rw [← hcontra]; exact List.mem_cons_self y p)
    simp only [List.cons_append, firstIndexOf, if_neg hyx, List.length_cons]
    show firstIndexOf (p ++ x :: t) x + 1 = p.length + 1
    rw [ih (fun hmem => hx (List.mem_cons_of_mem y hmem))]

theorem foldl_dedupAppend_invariant (raw : List String) :
    ∀ (l p acc : List String), raw = p ++ l →
      (∀ a, a ∈ acc ↔ a ∈ p) → acc.Nodup →
      acc.Pairwise (fun a b => firstIndexOf raw a < firstIndexOf raw b) →
      (∀ a ∈ acc, firstIndexOf raw a < p.length) →
      (l.foldl dedupAppend acc).Nodup ∧
      (∀ a, a ∈ l.foldl dedupAppend acc ↔ a ∈ p ++ l) ∧
      (l.foldl dedupAppend acc).Pairwise
        (fun a b => firstIndexOf raw a < firstIndexOf raw b) := by
  intro l
  induction l with
  | nil =>
    intro p acc hraw hmem hnd hpw hbd
    exact ⟨hnd, by simpa using hmem, hpw⟩
  | cons x xs ih =>
    intro p acc hraw hmem hnd hpw hbd
    by_cases hx : x ∈ acc
    · have hstep : (x :: xs).foldl dedupAppend acc =
          xs.foldl dedupAppend acc := by
        simp [dedupAppend, hx]
      have hres := ih (p ++ [x]) acc (by rw [hraw]; simp)
        (fun a => ⟨fun ha => List.mem_append_left _ ((hmem a).mp ha),
          fun ha => by
            rcases List.mem_append.mp ha with ha | ha
            · exact (hmem a).mpr ha
            · simp only [List.mem_singleton] at ha
              rw [ha]; exact hx⟩)
        hnd hpw
        (fun a ha => lt_of_lt_of_le (hbd a ha) (by simp))
      rw [hstep]
      refine ⟨hres.1, ?_, hres.2.2⟩
      intro a
      rw [hres.2.1 a]
      simp
    · have hstep : (x :: xs).foldl dedupAppend acc =
          xs.foldl dedupAppend (acc ++ [x]) := by
        simp [dedupAppend, hx]
      have hxp : x ∉ p := fun hcontra => hx ((hmem x).mpr hcontra)
      have hidx : firstIndexOf raw x = p.length := by
        rw [hraw]; exact firstIndexOf_append_cons p xs x hxp
      have hndx : (acc ++ [x]).Nodup := by
        simp [List.nodup_append, hnd, hx]
      have hpwx : (acc ++ [x]).Pairwise
          (fun a b => firstIndexOf raw a < firstIndexOf raw b) := by
        rw [List.pairwise_append]
        refine ⟨hpw, by simp, ?_⟩
        intro a ha b hb
        simp only [List.mem_singleton] at hb
        rw [hb, hidx]
        exact hbd a ha
      have hres := ih (p ++ [x]) (acc ++ [x]) (by rw [hraw]; simp)
        (fun a => by
          simp only [List.mem_append, List.mem_singleton]
          rw [hmem a])
        hndx hpwx
        (fun a ha => by
          rcases List.mem_append.mp ha with ha | ha
          · exact lt_of_lt_of_le (hbd a ha) (by simp)
          · simp only [List.mem_singleton] at ha
            rw [ha, hidx]
            simp)
      rw [hstep]
      refine ⟨hres.1, ?_, hres.2.2⟩
      intro a
      rw [hres.2.1 a]
      simp

/-- C7: the merged dependency list contains each package name exactly once —
it has no duplicates, its members are exactly the names occurring in the base
list followed by the configured groups in order, and its elements are
arranged by strictly increasing index of first occurrence in that
concatenation. -/
theorem collect_dependencies_first_seen_dedup (meta : ProjectMetadata)
    (groupNames : List String) :
    (collect_project_dependencies meta groupNames).Nodup ∧
    (∀ x, x ∈ collect_project_dependencies meta groupNames ↔
      x ∈ rawDependencyList meta groupNames) ∧
    (∀ x ∈ rawDependencyList meta groupNames,
      (collect_project_dependencies meta groupNames).count x = 1) ∧
    (collect_project_dependencies meta groupNames).Pairwise
      (fun a b => firstIndexOf (rawDependencyList meta groupNames) a <
        firstIndexOf (rawDependencyList meta groupNames) b) := by
  have h := foldl_dedupAppend_invariant (rawDependencyList meta groupNames)
    (rawDependencyList meta groupNames) [] [] (by simp) (by simp) (by simp)
    (by simp) (by simp)
  have hmem : ∀ x, x ∈ collect_project_dependencies meta groupNames ↔
      x ∈ rawDependencyList meta groupNames := by
    intro x
    rw [collect_project_dependencies, h.2.1 x]
    simp
  refine ⟨h.1, hmem, ?_, h.2.2⟩
  intro x hxmem
  exact List.count_eq_one_of_mem h.1 ((hmem x).mpr hxmem)

/-- C7 witness: the merge scenario of the test suite — base list with an internal
duplicate plus two groups overlapping it and each other — collapses to the
four names in first-seen order. -/
theorem collect_dependencies_first_seen_dedup_instance :
    collect_project_dependencies sampleMetadata ["dev", "extras"] =
      ["flask", "pytest", "black", "ruff"] ∧
    (collect_project_dependencies sampleMetadata ["dev", "extras"]).Nodup := by
  exact ⟨by decide,
    (collect_dependencies_first_seen_dedup sampleMetadata ["dev", "extras"]).1⟩

theorem find?_first_true (f : String → Bool) :
    ∀ (l : List String) (i : Nat) (hi : i < l.length),
      f (l.get ⟨i, hi⟩) = true →
      (∀ j (hj : j < i), f (l.get ⟨j, Nat.lt_trans hj hi⟩) = false) →
      l.find? f = some (l.get ⟨i, hi⟩) := by
  intro l
  induction l with
  | nil =>
    intro i hi
    exact absurd hi (by simp)
  | cons x t ih =>
    intro i hi hfi hprev
    cases i with
    | zero =>
      simp only [List.get] at hfi
      simp [List.find?_cons_of_pos, hfi]
    | succ n =>
      have hx : f x = false := by
        have h0 := hprev 0 (Nat.succ_pos n)
        simpa using h0
      have hi2 : n < t.length := Nat.lt_of_succ_lt_succ hi
      have hrec := ih n hi2 (by simpa using hfi)
        (fun j hj => by
          have hjj := hprev (j + 1) (Nat.succ_lt_succ hj)
          simpa using hjj)
      rw [List.find?_cons_of_neg _ (by simp [hx])]
      simpa using hrec

/-- C8: when managed-environment use is enabled the resolver returns the
first candidate interpreter path that exists; when no candidate exists it
invokes environment creation exactly once and returns the first candidate
path with no further existence gate; when disabled it returns the running
path of the running interpreter with no creation. -/
theorem resolver_policy (sysExecutable : String) (candidates : List String)
    (ex : String → Bool) :
    (∀ i (hi : i < candidates.length), ex (candidates.get ⟨i, hi⟩) = true →
      (∀ j (hj : j < i), ex (candidates.get ⟨j, Nat.lt_trans hj hi⟩) = false) →
      resolve_python_interpreter true sysExecutable candidates ex =
        (some (candidates.get ⟨i, hi⟩), 0)) ∧
    ((∀ p ∈ candidates, ex p = false) →
      resolve_python_interpreter true sysExecutable candidates ex =
        (candidates.head?, 1)) ∧
    resolve_python_interpreter false sysExecutable candidates ex =
      (some sysExecutable, 0) := by
  refine ⟨?_, ?_, rfl⟩
  · intro i hi hfi hprev
    have hfind := find?_first_true ex candidates i hi hfi hprev
    simp [resolve_python_interpreter, ensure_virtualenv_python, hfind]
  · intro hnone
    have hfind : candidates.find? ex = none := by
      rw [List.find?_eq_none]
      intro x hx
      simp [hnone x hx]
    simp [resolve_python_interpreter, ensure_virtualenv_python, hfind]

/-- C8 witness: with only the second candidate existing the resolver returns
it without creating; with no candidate existing it creates once and returns
the first candidate; disabled it returns the system interpreter. -/
theorem resolver_policy_instance :
    resolve_python_interpreter true ("/usr/bin/python3")
        (["venv/bin/python3", "venv/bin/python"])
        (fun s => s == "venv/bin/python") =
      (some ("venv/bin/python"), 0) ∧
    resolve_python_interpreter true ("/usr/bin/python3")
        (["venv/bin/python3", "venv/bin/python"]) (fun _ => false) =
      (some ("venv/bin/python3"), 1) ∧
    resolve_python_interpreter false ("/usr/bin/python3")
        (["venv/bin/python3", "venv/bin/python"]) (fun _ => false) =
      (some ("/usr/bin/python3"), 0) := by
  have h1 := resolver_policy ("/usr/bin/python3")
    (["venv/bin/python3", "venv/bin/python"]) (fun s => s == "venv/bin/python")
  have h2 := resolver_policy ("/usr/bin/python3")
    (["venv/bin/python3", "venv/bin/python"]) (fun _ => false)
  refine ⟨?_, ?_, h2.2.2⟩
  · have hi2 : 1 < (["venv/bin/python3", "venv/bin/python"] :
        List String).length := by decide
    exact h1.1 1 hi2 rfl
      (fun j hj => by
        have hj0 : j = 0 := Nat.lt_one_iff.mp hj
        subst hj0
        rfl)
  · exact h2.2.1 (fun p _ => rfl)

/-- C9: a request reaches the protected handler body exactly when it
supplies a non-empty token (header, form or query, in that precedence) equal
to the MY_SECRET_TOKEN value; otherwise both protected routes answer 403,
and with an empty reference token no request is ever granted. -/
theorem token_guard_policy (validToken : String) (r : Request)
    (platform_id : String) :
    (token_required validToken r = AuthResult.granted ↔
      (extractToken r ≠ "" ∧ extractToken r = validToken)) ∧
    (¬ (extractToken r ≠ "" ∧ extractToken r = validToken) →
      ∃ msg, shutdown_route validToken r platform_id =
          { status := 403, message := msg, spawned := [] } ∧
        restart_route validToken r platform_id =
          { status := 403, message := msg, spawned := [] }) ∧
    token_required ("") r ≠ AuthResult.granted := by
  refine ⟨?_, ?_, ?_⟩
  · by_cases h0 : extractToken r = ""
    · simp [token_required, h0]
    · by_cases hv : extractToken r = validToken
      · simp [token_required, h0, hv]
      · simp [token_required, h0, hv]
  · intro hneg
    by_cases h0 : extractToken r = ""
    · exact ⟨"Token is missing!",
        by simp [shutdown_route, restart_route, token_required, h0]⟩
    · have hv : extractToken r ≠ validToken := by
        intro hcontra
        exact hneg ⟨h0, hcontra⟩
      exact ⟨"Invalid token!",
        by simp [shutdown_route, restart_route, token_required, h0, hv]⟩
  · intro hcontra
    by_cases h0 : extractToken r = ""
    · simp [token_required, h0] at hcontra
    · simp [token_required, h0] at hcontra

/-- C9 witness: a Bearer-prefixed header with the right secret is granted, a
wrong form token is rejected 403 on both routes, and with an empty reference
token even a supplied token is rejected. -/
theorem token_guard_policy_instance :
    token_required ("s3cret")
      { authHeader := "Bearer s3cret", formToken := none,
        queryToken := none } = AuthResult.granted ∧
    (∃ msg, shutdown_route ("s3cret")
        { authHeader := "", formToken := some ("wrong"), queryToken := none }
        ("linux") = { status := 403, message := msg, spawned := [] } ∧
      restart_route ("s3cret")
        { authHeader := "", formToken := some ("wrong"), queryToken := none }
        ("linux") = { status := 403, message := msg, spawned := [] }) ∧
    token_required ("")
      { authHeader := "", formToken := some ("anything"),
        queryToken := none } ≠ AuthResult.granted := by
  refine ⟨?_, ?_, ?_⟩
  · exact (token_guard_policy ("s3cret")
      { authHeader := "Bearer s3cret", formToken := none, queryToken := none }
      ("linux")).1.mpr (by decide)
  · exact (token_guard_policy ("s3cret")
      { authHeader := "", formToken := some ("wrong"), queryToken := none }
      ("linux")).2.1 (by decide)
  · exact (token_guard_policy ("")
      { authHeader := "", formToken := some ("anything"), queryToken := none }
      ("linux")).2.2

/-- C10: the shutdown and restart handlers spawn no external command on any
platform; on linux-prefixed, wsl, darwin or windows platform ids they answer
200 with a command-issued message, on any other id 400 with an unsupported
platform message — without executing the selected command in either case. -/
theorem host_handlers_policy (platform_id : String) :
    (shutdown_handler platform_id).spawned = [] ∧
    (restart_handler platform_id).spawned = [] ∧
    (supportedPlatform platform_id = true →
      (shutdown_handler platform_id).status = 200 ∧
      (shutdown_handler platform_id).message = "Shutdown command issued" ∧
      (restart_handler platform_id).status = 200 ∧
      (restart_handler platform_id).message = "Restart command issued") ∧
    (supportedPlatform platform_id = false →
      (shutdown_handler platform_id).status = 400 ∧
      (shutdown_handler platform_id).message =
        "Unsupported platform: " ++ platform_id ∧
      (restart_handler platform_id).status = 400 ∧
      (restart_handler platform_id).message =
        "Unsupported platform: " ++ platform_id) := by
  cases hu : unixPlatform platform_id <;>
    cases hw : platform_id == "windows" <;>
    simp [shutdown_handler, restart_handler, shutdown_command,
      restart_command, supportedPlatform, hu, hw]

/-- C10 witness: concrete supported ids answer 200 with the issued message
and spawn nothing, and an unsupported id answers 400 with the unsupported
message. -/
theorem host_handlers_policy_instance :
    (shutdown_handler ("linux-wsl2")).spawned = [] ∧
    (shutdown_handler ("darwin")).status = 200 ∧
    (restart_handler ("darwin")).message = "Restart command issued" ∧
    (shutdown_handler ("plan9")).status = 400 ∧
    (restart_handler ("plan9")).message = "Unsupported platform: plan9" := by
  have hd := (host_handlers_policy ("darwin")).2.2.1 (by decide)
  have hp := (host_handlers_policy ("plan9")).2.2.2 (by decide)
  refine ⟨(host_handlers_policy ("linux-wsl2")).1, hd.1, hd.2.2.2,
    hp.1, ?_⟩
  rw [hp.2.2.2]
  decide

end HomeServer
